import Mathlib

/-!
Shallow embedding of the Copilot-Studio-compatible agent repository.

Source files embedded:
- `src/main.py`: the weather tool (`get_weather`), the query router
  (`OpenAIAgent.run_query`, `_looks_like_weather_query`,
  `_extract_location_from_weather_query`).
- `src/app.py`: the A2A JSON-RPC handlers (`handle_a2a_message`,
  `handle_a2a_tasks_get`) and the in-memory task store `A2A_TASKS`.

Modelling conventions:
- Python strings are Lean `String`; regex behaviour is implemented
  directly for the two fixed patterns the source uses, following the
  semantics of `re.search` / `re.split` (leftmost match, lazy and greedy
  quantifiers with single-character backtracking where the patterns need
  it).  Word characters and whitespace use the ASCII subsets of
  Python's `\w` and `\s`.
- External effects (environment variables, the geocoding and weather
  HTTP calls, the language-model agent) are inputs: the handlers take an
  environment record describing the outcome of each external call, so
  every function is total and executable.
- Python truthiness on optional strings (`x or y`, `if not x`) is
  modelled by `truthy` / `pyOr` / `pyOrD` below.
- `uuid.uuid4()` minting is modelled by a caller-supplied `mint : Nat →
  String`; the handler uses `mint 0` for the task id, `mint 1` for a
  missing user message id, `mint 2` for the agent message id and
  `mint 3` for a missing task contextId, matching the order of the four
  (conditional) `uuid.uuid4()` call sites in `handle_a2a_message`.
-/

/-- ASCII fragment of Python's regex `\w` (used by `\b` word boundaries). -/
def isWordChar (c : Char) : Bool := c.isAlphanum || c == '_'

/-- ASCII fragment of Python's regex/`str.strip` whitespace `\s`. -/
def isPySpace (c : Char) : Bool :=
  c == ' ' || c == '\t' || c == '\n' || c == '\r' || c == '\x0b' || c == '\x0c'

/-- Is the character at index `i` a word character (out of range counts as no)? -/
def wordCharAt (q : List Char) (i : Nat) : Bool :=
  match q.get? i with
  | some c => isWordChar c
  | none => false

/-- Regex `\b`: a word boundary sits at index `i` iff exactly one of the
characters around position `i` is a word character. -/
def isBoundary (q : List Char) (i : Nat) : Bool :=
  (match i with
   | 0 => false
   | j + 1 => wordCharAt q j) != wordCharAt q i

/-- Case-insensitive literal match of `w` at index `i` (re.IGNORECASE, ASCII). -/
def ciEqAt (q : List Char) (i : Nat) : List Char → Bool
  | [] => true
  | c :: cs =>
    match q.get? i with
    | some d => (d.toLower == c.toLower) && ciEqAt q (i + 1) cs
    | none => false

/-- Regex `\bw\b` (case-insensitive) anchored at index `i`. -/
def matchWordAt (q : List Char) (i : Nat) (w : List Char) : Bool :=
  isBoundary q i && ciEqAt q i w && isBoundary q (i + w.length)

/-- `_looks_like_weather_query` from `src/main.py`:
`bool(re.search(r"\bweather\b", query, re.IGNORECASE))`. -/
def looks_like_weather_query (query : String) : Bool :=
  (List.range (query.data.length + 1)).any fun i =>
    matchWordAt query.data i "weather".data

/-- The character class `[^?\n\r]` of the location-capturing regex. -/
def isCaptureChar (c : Char) : Bool := !(c == '?' || c == '\n' || c == '\r')

/-- Length of the maximal whitespace run starting at index `u` (regex `\s+`,
greedy, before backtracking). -/
def wsRunAux (q : List Char) (u : Nat) : Nat → Nat
  | 0 => 0
  | fuel + 1 =>
    match q.get? u with
    | some c => if isPySpace c then wsRunAux q (u + 1) fuel + 1 else 0
    | none => 0

def wsRun (q : List Char) (u : Nat) : Nat := wsRunAux q u q.length

/-- Backtracking of `\s+` against the following `[^?\n\r]+`: try the largest
split point first (`p = u + fuel` down to `u + 1`) and return the first
position whose character the capture class accepts. -/
def findCapStartAux (q : List Char) (u : Nat) : Nat → Option Nat
  | 0 => none
  | k + 1 =>
    let p := u + k + 1
    match q.get? p with
    | some c => if isCaptureChar c then some p else findCapStartAux q u k
    | none => findCapStartAux q u k

/-- Match `\s+([^?\n\r]+)` starting at index `u`; return the captured group. -/
def captureFrom (q : List Char) (u : Nat) : Option (List Char) :=
  let r := wsRun q u
  if r = 0 then none
  else
    match findCapStartAux q u r with
    | some p => some ((q.drop p).takeWhile isCaptureChar)
    | none => none

/-- Try `\b(?:in|for)\s+([^?\n\r]+)` at index `t`.  The two alternatives
start with distinct letters, so at most one literal can match and the
alternation needs no further backtracking. -/
def tryKeyword (q : List Char) (t : Nat) : Option (List Char) :=
  if isBoundary q t then
    if ciEqAt q t "in".data then captureFrom q (t + 2)
    else if ciEqAt q t "for".data then captureFrom q (t + 3)
    else none
  else none

/-- The lazy gap `.*?` (where `.` excludes `\n`): try the keyword at the
current index first, else consume one non-newline character and retry. -/
def scanGap (q : List Char) (t : Nat) : Nat → Option (List Char)
  | 0 => none
  | fuel + 1 =>
    match tryKeyword q t with
    | some cap => some cap
    | none =>
      match q.get? t with
      | none => none
      | some c => if c == '\n' then none else scanGap q (t + 1) fuel

/-- `re.search(r"\bweather\b.*?\b(?:in|for)\s+([^?\n\r]+)", query, re.IGNORECASE)`:
scan start positions left to right; at each `\bweather\b` occurrence run the
lazy gap scan; the first start position admitting a full match wins. -/
def searchWeatherInFor (q : List Char) : Option (List Char) :=
  (List.range (q.length + 1)).findSome? fun s =>
    if matchWordAt q s "weather".data then scanGap q (s + 7) (q.length + 1)
    else none

/-- Python `str.strip()` (ASCII whitespace). -/
def stripWs (l : List Char) : List Char :=
  ((l.dropWhile isPySpace).reverse.dropWhile isPySpace).reverse

/-- Python `str.strip("?")`: drop every leading and trailing question mark. -/
def stripQm (l : List Char) : List Char :=
  ((l.dropWhile (· == '?')).reverse.dropWhile (· == '?')).reverse

/-- One delimiter alternative of the truncation regex anchored at `t`:
a punctuation character or one of the whole words (with `\b` on both
sides), case-insensitively. -/
def delimHeadAt (l : List Char) (t : Nat) : Bool :=
  (match l.get? t with
   | some c => c == ',' || c == ';' || c == '.' || c == '(' || c == ')'
   | none => false)
  || matchWordAt l t "including".data
  || matchWordAt l t "with".data
  || matchWordAt l t "show".data
  || matchWordAt l t "give".data
  || matchWordAt l t "and".data

/-- Does `\s*(?:delim)` match starting at index `t` (leading whitespace run
followed by a delimiter alternative)? -/
def delimMatchFromAux (l : List Char) (t : Nat) : Nat → Bool
  | 0 => false
  | fuel + 1 =>
    if delimHeadAt l t then true
    else
      match l.get? t with
      | some c => isPySpace c && delimMatchFromAux l (t + 1) fuel
      | none => false

def delimMatchFrom (l : List Char) (t : Nat) : Bool :=
  delimMatchFromAux l t (l.length + 1)

/-- Start index of the leftmost match of
`\s*(?:,|;|\.|\(|\)|\bincluding\b|\bwith\b|\bshow\b|\bgive\b|\band\b)\s*`
in `l`, or `l.length` when there is none.  `re.split(..., maxsplit=1)[0]`
is the text before this index. -/
def splitIdx (l : List Char) : Nat :=
  match (List.range (l.length + 1)).find? (fun p => delimMatchFrom l p) with
  | some p => p
  | none => l.length

/-- `re.split(delims, location, maxsplit=1, re.IGNORECASE)[0]`. -/
def splitTrunc (l : List Char) : List Char := l.take (splitIdx l)

/-- `_extract_location_from_weather_query` from `src/main.py`. -/
def extract_location_from_weather_query (query : String) : String :=
  let location :=
    match searchWeatherInFor query.data with
    | some cap => stripWs cap
    | none => stripWs query.data
  let location := splitTrunc location
  String.mk (stripWs (stripQm (stripWs location)))

/-- Python truthiness of an optional string: `none` and `some ""` are falsy. -/
def truthy (o : Option String) : Option String :=
  match o with
  | some s => if s = "" then none else some s
  | none => none

/-- Python `a or b` on optional strings: `a` when truthy, else `b` unchanged. -/
def pyOr (a b : Option String) : Option String :=
  match a with
  | some s => if s = "" then b else some s
  | none => b

/-- Python `a or d` where `d` is a (truthy) string expression. -/
def pyOrD (a : Option String) (d : String) : String :=
  match a with
  | some s => if s = "" then d else s
  | none => d

/-- Outcome of one `requests.get` call (`src/main.py`): success with a
parsed payload, an `HTTPError` raised by `raise_for_status` (carrying
`response.status_code` and the provider-supplied `message` when the error
payload parses to a dict containing one), or any other
`requests.exceptions.RequestException` with its stringification. -/
inductive NetResult (α : Type) where
  | ok (value : α)
  | httpError (status : Option Nat) (details : Option String)
  | netError (msg : String)
deriving DecidableEq

/-- One entry of the geocoding response array.  `lat`/`lon` are `none`
when the key is absent (Python then raises `KeyError`); their numeric
values are only interpolated into the outgoing request URL, so they are
kept as opaque strings.  `raw` is the JSON rendering of the entry used in
the dumped payload. -/
structure GeoEntry where
  lat : Option String
  lon : Option String
  raw : String
deriving DecidableEq

/-- The `main` object of the weather payload; `temp`/`humidity` are the
printed forms of the numbers, `none` when the key is absent. -/
structure MainData where
  temp : Option String
  humidity : Option String
deriving DecidableEq

/-- The weather payload: `main` and `weather` are `none` when the key is
absent; each `weather` array entry is its `description` string (`none`
when that key is absent).  `raw` is the JSON rendering used in the dump. -/
structure WeatherPayload where
  main : Option MainData
  weather : Option (List (Option String))
  raw : String
deriving DecidableEq

/-- The external world `get_weather` interacts with: the
`OPENWEATHER_API_KEY` environment variable and the outcomes of the
geocoding and current-weather HTTP calls. -/
structure WeatherEnv where
  apiKey : Option String
  geo : NetResult (List GeoEntry)
  weatherResp : NetResult WeatherPayload
deriving DecidableEq

def apiKeyMissingMsg : String :=
  "Weather API key not configured. Please set OPENWEATHER_API_KEY in .env file."

def coordsNotFoundMsg (location : String) : String :=
  "Could not find coordinates for \x27" ++ location ++ "\x27. Please check the location name."

def missingFieldMsg (field : String) : String :=
  "Error parsing weather data: Missing field \x27" ++ field ++
    "\x27. This might be due to API limitations."

/-- The `requests.exceptions.HTTPError` branch: optional status code in
parentheses (skipped when falsy), optional provider details (skipped when
`None` or empty). -/
def httpErrorMsg (status : Option Nat) (details : Option String) : String :=
  let base := "OpenWeatherMap API error" ++
    (match status with
     | some s => if s = 0 then "" else " (" ++ toString s ++ ")"
     | none => "") ++ "."
  match details with
  | some d => if d = "" then base else base ++ " Details: " ++ d
  | none => base

def netErrorMsg (m : String) : String :=
  "Network/connection error fetching weather data: " ++ m

def unexpectedErrorMsg (m : String) : String :=
  "Unexpected error getting weather: " ++ m

/-- Python `str.title()` (ASCII): uppercase a letter that follows a
non-letter, lowercase a letter that follows a letter. -/
def titlePyAux : Bool → List Char → List Char
  | _, [] => []
  | prevAlpha, c :: cs =>
    if c.isAlpha then
      (if prevAlpha then c.toLower else c.toUpper) :: titlePyAux true cs
    else c :: titlePyAux false cs

def titlePy (s : String) : String := String.mk (titlePyAux false s.data)

/-- `json.dumps({"geocoding": geo_data[0], "weather": weather_data}, indent=2)`,
with the two sub-payloads supplied by the environment as already-rendered
JSON text. -/
def dumpPayload (geoRaw weatherRaw : String) : String :=
  "\x7b\n  \"geocoding\": " ++ geoRaw ++ ",\n  \"weather\": " ++ weatherRaw ++ "\n\x7d"

def weatherSummary (location desc temp humidity : String) : String :=
  "The weather in " ++ titlePy location ++ " is " ++ titlePy desc ++
    " with a temperature of " ++ temp ++ "°C and humidity of " ++ humidity ++ "%."

/-- The success return value of `get_weather`: raw payload code block plus
one-line summary. -/
def successBody (geoRaw weatherRaw location desc temp humidity : String) : String :=
  "FULL_OPENWEATHERMAP_API_RESPONSE (JSON):\n" ++
    "```json\n" ++ dumpPayload geoRaw weatherRaw ++ "\n```\n\n" ++
    "SUMMARY:\n" ++ weatherSummary location desc temp humidity

/-- `get_weather` from `src/main.py`.  The match order follows the
evaluation order of the Python body: API-key check, geocoding call,
empty-result check, `geo_data[0]['lat']` / `['lon']`, weather call, then
`weather_data['main']['temp']`, `['main']['humidity']`,
`['weather'][0]['description']`.  A missing key raises `KeyError` (caught
and mapped to `missingFieldMsg`); indexing the empty `weather` array
raises `IndexError` (caught by the final generic handler, whose `str(e)`
is "list index out of range"). -/
def get_weather (env : WeatherEnv) (location : String) : String :=
  match truthy env.apiKey with
  | none => apiKeyMissingMsg
  | some _ =>
    match env.geo with
    | .httpError st d => httpErrorMsg st d
    | .netError m => netErrorMsg m
    | .ok [] => coordsNotFoundMsg location
    | .ok (g :: _) =>
      match g.lat with
      | none => missingFieldMsg "lat"
      | some _ =>
        match g.lon with
        | none => missingFieldMsg "lon"
        | some _ =>
          match env.weatherResp with
          | .httpError st d => httpErrorMsg st d
          | .netError m => netErrorMsg m
          | .ok w =>
            match w.main with
            | none => missingFieldMsg "main"
            | some mn =>
              match mn.temp with
              | none => missingFieldMsg "temp"
              | some temp =>
                match mn.humidity with
                | none => missingFieldMsg "humidity"
                | some humidity =>
                  match w.weather with
                  | none => missingFieldMsg "weather"
                  | some [] => unexpectedErrorMsg "list index out of range"
                  | some (d :: _) =>
                    match d with
                    | none => missingFieldMsg "description"
                    | some desc =>
                      successBody g.raw w.raw location desc temp humidity

/-- The external `ChatAgent.run` result (`AgentRunResponse`), as consumed
by the duck-typed extraction in `src/app.py` lines 134-139: `text` is the
top-level `.text` attribute (collapsed to `none` when absent or `None`),
`messages` the `.text` of each entry of the `.messages` list, `toStr` the
`str(...)` fallback rendering. -/
structure AgentResult where
  text : Option String
  messages : List String
  toStr : String
deriving DecidableEq

/-- What `OpenAIAgent.run_query` returns: a plain Python `str` (the
weather bypass and the error path) or the agent framework's result
object. -/
inductive AgentValue where
  | plain (s : String)
  | obj (r : AgentResult)
deriving DecidableEq

/-- Which capability `run_query` invoked: the weather tool bypass (with
the location it was called with) or the general agent capability. -/
inductive Route where
  | tool (location : String)
  | agent
deriving DecidableEq

/-- The externals `OpenAIAgent.run_query` depends on: the language-model
agent capability (`.error` = the call raised, carrying `str(e)`) and the
weather tool's world. -/
structure AgentEnv where
  agentRun : String → Except String AgentResult
  weather : WeatherEnv

/-- `OpenAIAgent.run_query` from `src/main.py`, instrumented with the
route taken.  The weather bypass calls only total code (`get_weather`
catches every exception), so the `except` branch of the source can fire
only for the `self.agent.run(query)` call, modelled by the `.error` case
of `agentRun`. -/
def run_query (env : AgentEnv) (query : String) : Route × AgentValue :=
  if looks_like_weather_query query then
    let location := extract_location_from_weather_query query
    (Route.tool location, AgentValue.plain (get_weather env.weather location))
  else
    match env.agentRun query with
    | .ok result => (Route.agent, AgentValue.obj result)
    | .error e => (Route.agent, AgentValue.plain ("Error processing query: " ++ e))

/-- The duck-typed reply extraction in `handle_a2a_message`
(`src/app.py` lines 134-139): a plain `str` has neither a `.text` nor a
`.messages` attribute, so it falls through to `str(response_text)`,
i.e. itself; a result object yields its truthy `.text`, else the last
message's text when `.messages` is non-empty, else its `str(...)`. -/
def extractText : AgentValue → String
  | .plain s => s
  | .obj r =>
    match r.text with
    | some t =>
      if t = "" then
        match r.messages.getLast? with
        | some last => last
        | none => r.toStr
      else t
    | none =>
      match r.messages.getLast? with
      | some last => last
      | none => r.toStr

/-- One part of an incoming A2A message: `part.get("kind")` and
`part.get("text", "")` may each be absent. -/
structure ReqPart where
  kind : Option String
  text : Option String
deriving DecidableEq

/-- The incoming `params.message` object; every key is optional
(`dict.get`).  A missing `params` or `params.message` is the empty
message (all fields `none`, no parts). -/
structure ReqMessage where
  parts : List ReqPart
  contextId : Option String
  context_id : Option String
  messageId : Option String
  message_id : Option String
deriving DecidableEq

/-- A `message/send` JSON-RPC request body: `body.get("id")` and
`params.message`. -/
structure SendBody where
  id : Option String
  message : ReqMessage
deriving DecidableEq

/-- A `tasks/get` JSON-RPC request body: `body.get("id")` and
`params.get("id")`. -/
structure GetBody where
  id : Option String
  paramsId : Option String
deriving DecidableEq

/-- A part of an outgoing A2A message (always `kind: "text"` in this
code base, but the field is kept). -/
structure MsgPart where
  kind : String
  text : String
deriving DecidableEq

/-- An outgoing A2A `Message` object as built by `handle_a2a_message`.
`contextId` is optional: the source stores the possibly-`None` request
context id in both history messages. -/
structure A2AMessage where
  contextId : Option String
  kind : String
  messageId : String
  taskId : String
  parts : List MsgPart
  role : String
deriving DecidableEq

structure A2ATaskStatus where
  state : String
  message : A2AMessage
deriving DecidableEq

/-- An A2A `Task` object (`result_task` in `src/app.py`). -/
structure A2ATask where
  kind : String
  id : String
  contextId : String
  history : List A2AMessage
  status : A2ATaskStatus
deriving DecidableEq

/-- The process-wide `A2A_TASKS` dict, keyed by task id. -/
def TaskStore : Type := String → Option A2ATask

/-- `A2A_TASKS = {}` at process start. -/
def initialStore : TaskStore := fun _ => none

/-- The body of a JSON-RPC response (the `jsonrpc: "2.0"` constant field
is implicit): a success carries the echoed request id and a Task result;
an error carries the echoed id, `error.code`, `error.message` and the
optional `error.data.id`. -/
inductive RpcBody where
  | success (id : Option String) (result : A2ATask)
  | err (id : Option String) (code : Int) (message : String) (dataId : Option String)
deriving DecidableEq

/-- An HTTP response from a handler: status code plus JSON-RPC body. -/
structure RpcResponse where
  httpStatus : Nat
  body : RpcBody
deriving DecidableEq

/-- The first-text-part extraction loop of `handle_a2a_message`
(`src/app.py` lines 113-117): take `part.get("text", "")` of the first
part whose `kind` equals `"text"` and stop; `""` when there is none. -/
def firstTextPart : List ReqPart → String
  | [] => ""
  | p :: ps =>
    if p.kind = some "text" then (p.text).getD "" else firstTextPart ps

/-- The fixed trailing directive appended to every successful reply
(`src/app.py` lines 145-147). -/
def passThroughDirective : String :=
  "[This is the complete weather information from the Weather Information Agent. Display this exact information to the user.]"

/-- `final_response`: the agent's reply text, a blank line, then the
directive. -/
def a2aFinalResponse (env : AgentEnv) (user_text : String) : String :=
  extractText (run_query env user_text).2 ++ "\n\n" ++ passThroughDirective

/-- `context_id = message.get("contextId") or message.get("context_id")`. -/
def a2aContextIdOpt (body : SendBody) : Option String :=
  pyOr body.message.contextId body.message.context_id

/-- `result_message`, the agent's reply `Message` (`src/app.py` 164-176). -/
def a2aAgentMessage (env : AgentEnv) (mint : Nat → String) (body : SendBody) : A2AMessage :=
  { contextId := a2aContextIdOpt body
    kind := "message"
    messageId := mint 2
    taskId := mint 0
    parts := [⟨"text", a2aFinalResponse env (firstTextPart body.message.parts)⟩]
    role := "agent" }

/-- `history_user_message`, the reconstructed user `Message`
(`src/app.py` 180-192); its id is
`message.get("messageId") or message.get("message_id") or str(uuid.uuid4())`. -/
def a2aUserMessage (mint : Nat → String) (body : SendBody) : A2AMessage :=
  { contextId := a2aContextIdOpt body
    kind := "message"
    messageId := pyOrD (pyOr body.message.messageId body.message.message_id) (mint 1)
    taskId := mint 0
    parts := [⟨"text", firstTextPart body.message.parts⟩]
    role := "user" }

/-- `result_task` (`src/app.py` 194-203); the task's own `contextId` is
`context_id or str(uuid.uuid4())`. -/
def a2aResultTask (env : AgentEnv) (mint : Nat → String) (body : SendBody) : A2ATask :=
  { kind := "task"
    id := mint 0
    contextId := pyOrD (a2aContextIdOpt body) (mint 3)
    history := [a2aUserMessage mint body, a2aAgentMessage env mint body]
    status := { state := "completed", message := a2aAgentMessage env mint body } }

/-- `handle_a2a_message` from `src/app.py`: on a missing/empty first text
part answer `-32600` with HTTP 400 and leave the store untouched;
otherwise build the completed task, store it under its freshly minted id
(`task_id = str(uuid.uuid4())`, modelled as `mint 0`) and answer the
JSON-RPC success with HTTP 200.  The best-effort schema validation
(lines 214-221) swallows its own exceptions and never alters the
response, so it has no observable effect to model. -/
def handle_a2a_message (env : AgentEnv) (mint : Nat → String) (store : TaskStore)
    (body : SendBody) : TaskStore × RpcResponse :=
  if firstTextPart body.message.parts = "" then
    (store, ⟨400, RpcBody.err body.id (-32600) "No text found in message" none⟩)
  else
    (fun k => if k = mint 0 then some (a2aResultTask env mint body) else store k,
     ⟨200, RpcBody.success body.id (a2aResultTask env mint body)⟩)

/-- `handle_a2a_tasks_get` from `src/app.py`: a falsy `params.id`
(absent, `None` or empty) answers `-32602`/HTTP 400; an id not in the
store answers `-32001` "Task not found" with `data.id` echoing the id
and HTTP 404; otherwise the stored task is returned with HTTP 200.  The
handler never writes the store. -/
def handle_a2a_tasks_get (store : TaskStore) (body : GetBody) : TaskStore × RpcResponse :=
  match truthy body.paramsId with
  | none =>
    (store, ⟨400, RpcBody.err body.id (-32602) "Invalid parameters: missing params.id" none⟩)
  | some task_id =>
    match store task_id with
    | none =>
      (store, ⟨404, RpcBody.err body.id (-32001) "Task not found" (some task_id)⟩)
    | some task => (store, ⟨200, RpcBody.success body.id task⟩)

/-- Well-formedness of one stored task under its store key: the shape
`handle_a2a_message` gives every task it persists. -/
def TaskWF (k : String) (t : A2ATask) : Prop :=
  t.id = k ∧ t.kind = "task" ∧ t.status.state = "completed" ∧
  ∃ u a, t.history = [u, a] ∧ u.taskId = k ∧ a.taskId = k ∧
    u.role = "user" ∧ a.role = "agent" ∧ t.status.message = a

/-- Invariant of the `A2A_TASKS` store. -/
def StoreWF (store : TaskStore) : Prop :=
  ∀ k t, store k = some t → TaskWF k t

/-- A concrete agent-framework result used by concrete runs. -/
def testAgentResult : AgentResult := { text := some "hi", messages := [], toStr := "hi" }

/-- A weather world with no API key configured. -/
def testWeatherEnv : WeatherEnv :=
  { apiKey := none
    geo := NetResult.ok []
    weatherResp := NetResult.ok { main := none, weather := none, raw := "" } }

/-- A weather world with a configured key whose geocoding call returns an
empty result array. -/
def keyedWeatherEnv : WeatherEnv :=
  { apiKey := some "k"
    geo := NetResult.ok []
    weatherResp := NetResult.ok { main := none, weather := none, raw := "" } }

/-- A concrete environment whose agent capability succeeds. -/
def testEnv : AgentEnv :=
  { agentRun := fun _ => Except.ok testAgentResult, weather := testWeatherEnv }

/-- A concrete environment whose agent capability raises. -/
def failEnv : AgentEnv :=
  { agentRun := fun _ => Except.error "boom", weather := testWeatherEnv }

/-- A concrete mint stream of pairwise distinct non-empty identifiers. -/
def testMint : Nat → String := fun n => "uuid-" ++ toString n

/-- A `message/send` body whose first (and only) text part carries the
empty string. -/
def emptyTextBody : SendBody :=
  { id := some "1"
    message :=
      { parts := [⟨some "text", some ""⟩]
        contextId := none, context_id := none, messageId := none, message_id := none } }

/-- A plain `message/send` body with text "hello" and no optional ids. -/
def helloBody : SendBody :=
  { id := some "7"
    message :=
      { parts := [⟨some "text", some "hello"⟩]
        contextId := none, context_id := none, messageId := none, message_id := none } }

/-- A `message/send` body that supplies `contextId` and `messageId`. -/
def ctxBody : SendBody :=
  { id := some "8"
    message :=
      { parts := [⟨some "text", some "hello"⟩]
        contextId := some "ctx-1", context_id := none
        messageId := some "m-1", message_id := none } }

/-- A `message/send` body with parts but none of kind "text". -/
def noTextBody : SendBody :=
  { id := some "2"
    message :=
      { parts := [⟨some "file", some "x"⟩, ⟨none, some "y"⟩]
        contextId := none, context_id := none, messageId := none, message_id := none } }

/-- A `tasks/get` body carrying the empty string as `params.id`. -/
def getBodyEmpty : GetBody := { id := none, paramsId := some "" }

/-- A `tasks/get` body for an id that was never issued. -/
def getBodyA : GetBody := { id := some "3", paramsId := some "zzz" }

theorem length_append_pos (a b : String) (h : 0 < a.length) : 0 < (a ++ b).length := by
  rw [String.length_append]; omega

theorem coordsNotFoundMsg_pos (location : String) : 0 < (coordsNotFoundMsg location).length := by
  unfold coordsNotFoundMsg
  exact length_append_pos _ _ (length_append_pos _ _ (by decide))

theorem missingFieldMsg_pos (f : String) : 0 < (missingFieldMsg f).length := by
  unfold missingFieldMsg
  exact length_append_pos _ _ (length_append_pos _ _ (by decide))

theorem netErrorMsg_pos (m : String) : 0 < (netErrorMsg m).length := by
  unfold netErrorMsg
  exact length_append_pos _ _ (by decide)

theorem unexpectedErrorMsg_pos (m : String) : 0 < (unexpectedErrorMsg m).length := by
  unfold unexpectedErrorMsg
  exact length_append_pos _ _ (by decide)

theorem httpErrorMsg_pos (st : Option Nat) (d : Option String) :
    0 < (httpErrorMsg st d).length := by
  unfold httpErrorMsg
  have hbase : ∀ x : String, 0 < (("OpenWeatherMap API error" ++ x) ++ ".").length :=
    fun x => length_append_pos _ _ (length_append_pos _ _ (by decide))
  cases d with
  | none => exact hbase _
  | some d' =>
    by_cases hd : d' = ""
    · simp only [hd, if_pos rfl]
      exact hbase _
    · simp only [if_neg hd]
      exact length_append_pos _ _ (length_append_pos _ _ (hbase _))

theorem successBody_pos (geoRaw weatherRaw location desc temp humidity : String) :
    0 < (successBody geoRaw weatherRaw location desc temp humidity).length := by
  unfold successBody
  exact length_append_pos _ _ (length_append_pos _ _ (length_append_pos _ _
    (length_append_pos _ _ (length_append_pos _ _ (by decide)))))

theorem firstTextPart_eq_empty (parts : List ReqPart)
    (h : ∀ p ∈ parts, p.kind ≠ some "text") : firstTextPart parts = "" := by
  induction parts with
  | nil => rfl
  | cons p ps ih =>
    unfold firstTextPart
    rw [if_neg (h p (List.mem_cons_self p ps))]
    exact ih fun q hq => h q (List.mem_cons_of_mem p hq)

/-- Helper for C2: a non-empty id present in the store is returned by
`tasks/get` with HTTP 200 and the store untouched. -/
theorem tasks_get_found (store : TaskStore) (gid : Option String) (tid : String)
    (h0 : tid ≠ "") (t : A2ATask) (hs : store tid = some t) :
    handle_a2a_tasks_get store ⟨gid, some tid⟩ =
      (store, ⟨200, RpcBody.success gid t⟩) := by
  unfold handle_a2a_tasks_get
  simp only [truthy, if_neg h0, hs]

/-- C1 (amended): for every `message/send` request whose first part of
kind "text" carries a non-empty text string, the JSON-RPC success
response's result is a Task with kind "task", `status.state =
"completed"`, a history of exactly two Messages ordered [user, agent],
and `status.message` equal to the agent message. -/
theorem C1_message_send_returns_completed_task (env : AgentEnv) (mint : Nat → String)
    (store : TaskStore) (body : SendBody)
    (h : firstTextPart body.message.parts ≠ "") :
    (handle_a2a_message env mint store body).2 =
      ⟨200, RpcBody.success body.id (a2aResultTask env mint body)⟩ ∧
    (a2aResultTask env mint body).kind = "task" ∧
    (a2aResultTask env mint body).status.state = "completed" ∧
    (a2aResultTask env mint body).history =
      [a2aUserMessage mint body, a2aAgentMessage env mint body] ∧
    (a2aUserMessage mint body).role = "user" ∧
    (a2aAgentMessage env mint body).role = "agent" ∧
    (a2aResultTask env mint body).status.message = a2aAgentMessage env mint body := by
  refine ⟨?_, rfl, rfl, rfl, rfl, rfl, rfl⟩
  unfold handle_a2a_message
  rw [if_neg h]

/-- C1 witness: the amended statement at a concrete request. -/
theorem C1_witness :
    (handle_a2a_message testEnv testMint initialStore helloBody).2 =
      ⟨200, RpcBody.success helloBody.id (a2aResultTask testEnv testMint helloBody)⟩ :=
  (C1_message_send_returns_completed_task testEnv testMint initialStore helloBody
    (by decide)).1

/-- C1 counterexample: a request whose parts DO contain a part with kind
"text" (carrying the empty string) is answered with error `-32600` and
HTTP 400, not with a Task — refuting the claim as stated. -/
theorem C1_counterexample :
    (handle_a2a_message testEnv testMint initialStore emptyTextBody).2 =
      ⟨400, RpcBody.err (some "1") (-32600) "No text found in message" none⟩ := by
  rfl

/-- C2 (amended): every task id returned by a successful `message/send`
(ids minted by `uuid.uuid4()` are non-empty) is answered by a subsequent
`tasks/get` with HTTP 200 and the identical Task, the store unchanged;
every NON-EMPTY id never issued is answered with error `-32001` "Task
not found", `data.id` echoing the id, and HTTP 404 (a missing or empty
`params.id` instead yields `-32602`/HTTP 400). -/
theorem C2_tasks_get_roundtrip :
    (∀ (env : AgentEnv) (mint : Nat → String) (store : TaskStore) (body : SendBody)
        (gid : Option String),
      firstTextPart body.message.parts ≠ "" → mint 0 ≠ "" →
      handle_a2a_tasks_get (handle_a2a_message env mint store body).1
          ⟨gid, some (a2aResultTask env mint body).id⟩ =
        ((handle_a2a_message env mint store body).1,
         ⟨200, RpcBody.success gid (a2aResultTask env mint body)⟩)) ∧
    (∀ (store : TaskStore) (gbody : GetBody) (tid : String),
      gbody.paramsId = some tid → tid ≠ "" → store tid = none →
      handle_a2a_tasks_get store gbody =
        (store, ⟨404, RpcBody.err gbody.id (-32001) "Task not found" (some tid)⟩)) := by
  constructor
  · intro env mint store body gid h h0
    have hmsg : handle_a2a_message env mint store body =
        (fun k => if k = mint 0 then some (a2aResultTask env mint body) else store k,
         ⟨200, RpcBody.success body.id (a2aResultTask env mint body)⟩) := by
      unfold handle_a2a_message; rw [if_neg h]
    have hid : (a2aResultTask env mint body).id = mint 0 := rfl
    rw [hmsg, hid]
    exact tasks_get_found _ gid (mint 0) h0 _ (by simp)
  · intro store gbody tid hp h0 hs
    obtain ⟨gi, pi⟩ := gbody
    simp only at hp
    subst hp
    unfold handle_a2a_tasks_get
    simp only [truthy, if_neg h0, hs]

/-- C2 witness: round trip at a concrete request and store. -/
theorem C2_witness :
    handle_a2a_tasks_get (handle_a2a_message testEnv testMint initialStore helloBody).1
        ⟨some "9", some (a2aResultTask testEnv testMint helloBody).id⟩ =
      ((handle_a2a_message testEnv testMint initialStore helloBody).1,
       ⟨200, RpcBody.success (some "9") (a2aResultTask testEnv testMint helloBody)⟩) :=
  C2_tasks_get_roundtrip.1 testEnv testMint initialStore helloBody (some "9")
    (by decide) (by decide)

/-- C2 counterexample: the empty string was never issued as a task id
(the store is the initial empty store), yet `tasks/get` answers `-32602`
with HTTP 400, not `-32001` with HTTP 404 — refuting the claim's
"every id never issued" clause as stated. -/
theorem C2_counterexample :
    (handle_a2a_tasks_get initialStore getBodyEmpty).2 =
      ⟨400, RpcBody.err none (-32602) "Invalid parameters: missing params.id" none⟩ := by
  rfl

/-- C3: every query containing "weather" as a whole word (any
capitalization) is routed to the weather tool `get_weather` with the
extracted location and its result is returned directly; every other
query is delegated to the general agent capability. -/
theorem C3_weather_routing (env : AgentEnv) (q : String) :
    (looks_like_weather_query q = true →
      run_query env q =
        (Route.tool (extract_location_from_weather_query q),
         AgentValue.plain
           (get_weather env.weather (extract_location_from_weather_query q)))) ∧
    (looks_like_weather_query q = false → (run_query env q).1 = Route.agent) := by
  constructor
  · intro h
    simp [run_query, h]
  · intro h
    simp only [run_query, h, Bool.false_eq_true, if_false]
    cases env.agentRun q <;> rfl

/-- C3 witness: a concrete weather query takes the tool route. -/
theorem C3_witness :
    run_query testEnv "weather in Paris" =
      (Route.tool (extract_location_from_weather_query "weather in Paris"),
       AgentValue.plain
         (get_weather testEnv.weather
           (extract_location_from_weather_query "weather in Paris"))) :=
  (C3_weather_routing testEnv "weather in Paris").1 (by decide)

/-- C4: the location extractor's behaviour on the three specified
inputs: a "weather in X, including ..." query yields `X`, a "weather
for X" query yields `X`, and a query without an "in"/"for" phrase falls
back to the trimmed full query with the trailing question mark
removed. -/
theorem C4_location_extraction :
    extract_location_from_weather_query
        "weather in Faisalabad, including temperature and humidity" = "Faisalabad" ∧
    extract_location_from_weather_query "weather for New York" = "New York" ∧
    extract_location_from_weather_query "what\x27s the weather like?" =
      "what\x27s the weather like" := by
  exact ⟨by decide, by decide, by decide⟩

/-- C5: for every successful `message/send` the agent Message's text is
the agent's reply text, a blank line, then the one fixed trailing
pass-through directive (a single constant, identical for every
response). -/
theorem C5_directive_appended (env : AgentEnv) (mint : Nat → String)
    (store : TaskStore) (body : SendBody)
    (h : firstTextPart body.message.parts ≠ "") :
    (handle_a2a_message env mint store body).2.body =
      RpcBody.success body.id (a2aResultTask env mint body) ∧
    (a2aResultTask env mint body).status.message.parts =
      [⟨"text",
        extractText (run_query env (firstTextPart body.message.parts)).2
          ++ "\n\n" ++ passThroughDirective⟩] := by
  refine ⟨?_, rfl⟩
  unfold handle_a2a_message
  rw [if_neg h]

/-- C5 witness: the directive is appended at a concrete request. -/
theorem C5_witness :
    (a2aResultTask testEnv testMint helloBody).status.message.parts =
      [⟨"text",
        extractText (run_query testEnv (firstTextPart helloBody.message.parts)).2
          ++ "\n\n" ++ passThroughDirective⟩] :=
  (C5_directive_appended testEnv testMint initialStore helloBody (by decide)).2

/-- C6: `get_weather` is total and always returns non-empty text; with a
falsy API key it returns the fixed configuration-error string, and with
a configured key and an empty geocoding result it returns the
could-not-find-coordinates message for the requested location. -/
theorem C6_get_weather_total (wenv : WeatherEnv) (location : String) :
    0 < (get_weather wenv location).length ∧
    (truthy wenv.apiKey = none → get_weather wenv location = apiKeyMissingMsg) ∧
    (truthy wenv.apiKey ≠ none → wenv.geo = NetResult.ok [] →
      get_weather wenv location = coordsNotFoundMsg location) := by
  obtain ⟨key, geo, wresp⟩ := wenv
  refine ⟨?_, ?_, ?_⟩
  · simp only [get_weather]
    cases truthy key with
    | none =>
      show 0 < apiKeyMissingMsg.length
      decide
    | some k =>
      cases geo with
      | httpError st d => exact httpErrorMsg_pos st d
      | netError m => exact netErrorMsg_pos m
      | ok gl =>
        cases gl with
        | nil => exact coordsNotFoundMsg_pos location
        | cons g gs =>
          obtain ⟨glat, glon, graw⟩ := g
          cases glat with
          | none => exact missingFieldMsg_pos "lat"
          | some la =>
            cases glon with
            | none => exact missingFieldMsg_pos "lon"
            | some lo =>
              cases wresp with
              | httpError st d => exact httpErrorMsg_pos st d
              | netError m => exact netErrorMsg_pos m
              | ok w =>
                obtain ⟨wmain, wweather, wraw⟩ := w
                cases wmain with
                | none => exact missingFieldMsg_pos "main"
                | some mn =>
                  obtain ⟨mtemp, mhum⟩ := mn
                  cases mtemp with
                  | none => exact missingFieldMsg_pos "temp"
                  | some temp =>
                    cases mhum with
                    | none => exact missingFieldMsg_pos "humidity"
                    | some hum =>
                      cases wweather with
                      | none => exact missingFieldMsg_pos "weather"
                      | some dl =>
                        cases dl with
                        | nil => exact unexpectedErrorMsg_pos "list index out of range"
                        | cons d ds =>
                          cases d with
                          | none => exact missingFieldMsg_pos "description"
                          | some desc =>
                            exact successBody_pos graw wraw location desc temp hum
  · intro h
    simp only at h
    simp only [get_weather, h]
  · intro hk hg
    simp only at hk hg
    subst hg
    cases htk : truthy key with
    | none => exact absurd htk hk
    | some k => simp only [get_weather, htk]

/-- C6 witness: the two specified failure modes at concrete inputs, and
the coordinates message spelled out. -/
theorem C6_witness :
    get_weather testWeatherEnv "Qwxzplace123" = apiKeyMissingMsg ∧
    get_weather keyedWeatherEnv "Qwxzplace123" = coordsNotFoundMsg "Qwxzplace123" ∧
    coordsNotFoundMsg "Qwxzplace123" =
      "Could not find coordinates for \x27Qwxzplace123\x27. Please check the location name." :=
  ⟨(C6_get_weather_total testWeatherEnv "Qwxzplace123").2.1 (by decide),
   (C6_get_weather_total keyedWeatherEnv "Qwxzplace123").2.2 (by decide) (by decide),
   by decide⟩

/-- C7 (amended): in every successful `message/send`, when the request
supplies a non-empty contextId (key `contextId`, else `context_id`), the
Task and both Messages carry it; otherwise only the Task receives a
freshly minted contextId while both Messages carry the request's falsy
value (null when absent, or the empty string). -/
theorem C7_context_id_propagation (env : AgentEnv) (mint : Nat → String)
    (store : TaskStore) (body : SendBody)
    (h : firstTextPart body.message.parts ≠ "") :
    (handle_a2a_message env mint store body).2.body =
      RpcBody.success body.id (a2aResultTask env mint body) ∧
    (∀ c, a2aContextIdOpt body = some c → c ≠ "" →
      (a2aResultTask env mint body).contextId = c ∧
      (a2aUserMessage mint body).contextId = some c ∧
      (a2aAgentMessage env mint body).contextId = some c) ∧
    (truthy (a2aContextIdOpt body) = none →
      (a2aResultTask env mint body).contextId = mint 3 ∧
      (a2aUserMessage mint body).contextId = a2aContextIdOpt body ∧
      (a2aAgentMessage env mint body).contextId = a2aContextIdOpt body) := by
  refine ⟨?_, ?_, ?_⟩
  · unfold handle_a2a_message
    rw [if_neg h]
  · intro c hc hcne
    refine ⟨?_, ?_, ?_⟩
    · show pyOrD (a2aContextIdOpt body) (mint 3) = c
      rw [hc]
      show (if c = "" then mint 3 else c) = c
      rw [if_neg hcne]
    · show a2aContextIdOpt body = some c
      exact hc
    · show a2aContextIdOpt body = some c
      exact hc
  · intro ht
    refine ⟨?_, rfl, rfl⟩
    show pyOrD (a2aContextIdOpt body) (mint 3) = mint 3
    cases hx : a2aContextIdOpt body with
    | none => rfl
    | some s =>
      rw [hx] at ht
      have ht2 : (if s = "" then none else some s) = (none : Option String) := ht
      by_cases hs : s = ""
      · show (if s = "" then mint 3 else s) = mint 3
        rw [if_pos hs]
      · rw [if_neg hs] at ht2
        exact absurd ht2 (by simp)

/-- C7 witness: with a supplied contextId the Task carries it. -/
theorem C7_witness :
    (a2aResultTask testEnv testMint ctxBody).contextId = "ctx-1" :=
  ((C7_context_id_propagation testEnv testMint initialStore ctxBody
      (by decide)).2.1 "ctx-1" (by decide) (by decide)).1

/-- C7 counterexample: a successful `message/send` without any request
contextId produces Messages whose contextId is null while the Task's
contextId is the minted "uuid-3" — refuting the claim that every Message
carries a non-null contextId equal to the enclosing Task's. -/
theorem C7_counterexample :
    (handle_a2a_message testEnv testMint initialStore helloBody).2.body =
      RpcBody.success (some "7") (a2aResultTask testEnv testMint helloBody) ∧
    (a2aResultTask testEnv testMint helloBody).status.message.contextId = none ∧
    (a2aResultTask testEnv testMint helloBody).contextId = "uuid-3" := by
  exact ⟨by rfl, by rfl, by rfl⟩

/-- C8: a `message/send` whose parts contain no entry of kind "text" is
answered with error `-32600` "No text found in message" and HTTP 400,
and the task store is left unchanged (no Task is created or stored). -/
theorem C8_no_text_part_error (env : AgentEnv) (mint : Nat → String)
    (store : TaskStore) (body : SendBody)
    (h : ∀ p ∈ body.message.parts, p.kind ≠ some "text") :
    handle_a2a_message env mint store body =
      (store, ⟨400, RpcBody.err body.id (-32600) "No text found in message" none⟩) := by
  unfold handle_a2a_message
  rw [if_pos (firstTextPart_eq_empty body.message.parts h)]

/-- C8 witness: the no-text error at a concrete request. -/
theorem C8_witness :
    handle_a2a_message testEnv testMint initialStore noTextBody =
      (initialStore,
       ⟨400, RpcBody.err noTextBody.id (-32600) "No text found in message" none⟩) :=
  C8_no_text_part_error testEnv testMint initialStore noTextBody (by decide)

/-- C9: `run_query` never raises — when the agent capability raises with
message `e` on a non-weather query, `run_query` returns the plain string
"Error processing query: e", and `message/send` on such a query still
produces a completed Task whose reply text is that error sentence (plus
the directive), not a `-32603` internal-error response. -/
theorem C9_agent_failure_is_text (env : AgentEnv) (mint : Nat → String)
    (store : TaskStore) (body : SendBody) (e : String)
    (h : firstTextPart body.message.parts ≠ "")
    (hw : looks_like_weather_query (firstTextPart body.message.parts) = false)
    (he : env.agentRun (firstTextPart body.message.parts) = Except.error e) :
    run_query env (firstTextPart body.message.parts) =
      (Route.agent, AgentValue.plain ("Error processing query: " ++ e)) ∧
    (handle_a2a_message env mint store body).2 =
      ⟨200, RpcBody.success body.id (a2aResultTask env mint body)⟩ ∧
    (a2aResultTask env mint body).status.state = "completed" ∧
    (a2aResultTask env mint body).status.message.parts =
      [⟨"text",
        "Error processing query: " ++ e ++ "\n\n" ++ passThroughDirective⟩] := by
  have hrq : run_query env (firstTextPart body.message.parts) =
      (Route.agent, AgentValue.plain ("Error processing query: " ++ e)) := by
    simp [run_query, hw, he]
  refine ⟨hrq, ?_, rfl, ?_⟩
  · unfold handle_a2a_message
    rw [if_neg h]
  · show [(⟨"text", a2aFinalResponse env (firstTextPart body.message.parts)⟩ : MsgPart)] = _
    unfold a2aFinalResponse
    rw [hrq]
    rfl

/-- C9 witness: a concrete failing agent call becomes the error
sentence. -/
theorem C9_witness :
    run_query failEnv (firstTextPart helloBody.message.parts) =
      (Route.agent, AgentValue.plain ("Error processing query: " ++ "boom")) :=
  (C9_agent_failure_is_text failEnv testMint initialStore helloBody "boom"
    (by decide) (by decide) rfl).1

/-- C10: the task-store invariant — every entry maps its key `k` to a
Task with id `k`, kind "task", completed state, a two-element history
[user, agent] whose Messages both carry taskId `k`, and `status.message`
equal to the agent entry — is preserved by `handle_a2a_message`, and
`handle_a2a_tasks_get` returns the store unmodified. -/
theorem C10_store_invariant (env : AgentEnv) (mint : Nat → String) (store : TaskStore)
    (sbody : SendBody) (gbody : GetBody) (hwf : StoreWF store) :
    StoreWF (handle_a2a_message env mint store sbody).1 ∧
    (handle_a2a_tasks_get store gbody).1 = store := by
  constructor
  · by_cases hft : firstTextPart sbody.message.parts = ""
    · have hsame : (handle_a2a_message env mint store sbody).1 = store := by
        unfold handle_a2a_message
        rw [if_pos hft]
      rw [hsame]
      exact hwf
    · have hupd : (handle_a2a_message env mint store sbody).1 =
          fun k => if k = mint 0 then some (a2aResultTask env mint sbody) else store k := by
        unfold handle_a2a_message
        rw [if_neg hft]
      rw [hupd]
      intro k t hkt
      have hkt2 : (if k = mint 0 then some (a2aResultTask env mint sbody) else store k)
          = some t := hkt
      by_cases hk : k = mint 0
      · subst hk
        rw [if_pos rfl] at hkt2
        injection hkt2 with ht
        subst ht
        exact ⟨rfl, rfl, rfl, a2aUserMessage mint sbody, a2aAgentMessage env mint sbody,
          rfl, rfl, rfl, rfl, rfl, rfl⟩
      · rw [if_neg hk] at hkt2
        exact hwf k t hkt2
  · unfold handle_a2a_tasks_get
    split
    · rfl
    · split <;> rfl

/-- C10 witness: the empty initial store satisfies the invariant and
`tasks/get` leaves it unchanged. -/
theorem C10_witness :
    (handle_a2a_tasks_get initialStore getBodyA).1 = initialStore :=
  (C10_store_invariant testEnv testMint initialStore helloBody getBodyA
    (fun _ _ hkt => Option.noConfusion hkt)).2
